import Mathlib

/-!
Verification of the `preProvision` composite step of
`pkg/workflows/steps/provider/preprovision.go` and of the kube
`Service.Create` operation, as a shallow embedding in Lean.

Modelling conventions:
* Go errors built with `github.com/pkg/errors` are `GoErr`: `errors.New`
  is `GoErr.new`, `errors.Wrap(err, msg)` is `GoErr.wrap err msg`
  (its `Error()` string is `msg ++ ": " ++ err.Error()`, its cause chain
  is `err` followed by `err`'s own causes).
* `steps.Config` is a structure carrying the provider identifier and an
  abstract payload `α` standing for every other field; inner steps may
  mutate it, so a step's `Run` returns the new configuration.
* `context.Context` is modelled by the single bit the claims need: a
  `Bool` that is `true` when the context is already cancelled.
* The inner steps of the pipeline (packages `amazon`, `azure`) are
  outside this source slice, so a registered step is an arbitrary
  behaviour `PStep`: a name plus arbitrary `run`/`rollback` functions of
  the context flag and the configuration.
* Invoking `Run` on a nil `steps.Step` interface value panics in Go;
  the outcome `RunOutcome.panic` models that.
* A run additionally produces a trace of `Event`s recording, in order,
  which steps had `Run` (`Event.ran`) or `Rollback` (`Event.rolledBack`)
  invoked on them; the engine code itself decides what enters the trace.
-/

namespace Supergiant

/-- Model of error values built by the pkg/errors library:
`new` for `errors.New`, `wrap` for `errors.Wrap`. -/
inductive GoErr where
  | new : String → GoErr
  | wrap : GoErr → String → GoErr
deriving DecidableEq, Repr

/-- The `Error()` message of a pkg/errors value: wrapping prepends
`msg ++ ": "` to the wrapped error's message. -/
def GoErr.message : GoErr → String
  | .new m => m
  | .wrap e m => m ++ ": " ++ e.message

/-- The cause chain of a pkg/errors value: repeatedly unwrapping.
`errors.Wrap` keeps the wrapped error reachable via `Cause()`. -/
def GoErr.causes : GoErr → List GoErr
  | .new _ => []
  | .wrap e _ => e :: e.causes

/-- Model of `steps.Config`: the provider identifier plus an abstract
payload `α` standing for all remaining fields. The Go code passes it by
pointer; `none` at the composite's boundary models a nil pointer. -/
structure Config (α : Type) where
  provider : String
  payload : α
deriving DecidableEq, Repr

/-- Model of a registered `steps.Step` implementation. The concrete
amazon/azure steps are outside this source slice, so `run` and
`rollback` are arbitrary functions of the context-cancellation flag and
the configuration, returning an optional error and the (possibly
mutated) configuration. -/
structure PStep (α : Type) where
  name : String
  run : Bool → Config α → Option GoErr × Config α
  rollback : Bool → Config α → Option GoErr × Config α

/-- Observable invocations of a pipeline run, in order. -/
inductive Event where
  | ran : String → Event
  | rolledBack : String → Event
deriving DecidableEq, Repr

/-- Modelled from the spec: the process-wide step registry of package
`steps` (not in this source slice), as the map it denotes after
initialization: step name to registered step, or none. -/
def Registry (α : Type) : Type := String → Option (PStep α)

/-- Modelled from the spec: `steps.GetStep(name) -> Step | nil` is a
plain lookup; absence yields the nil interface value (`none`). -/
def GetStep {α : Type} (reg : Registry α) (name : String) : Option (PStep α) :=
  reg name

/-- Modelled from the spec: provider identifiers of package `clouds`,
a closed set of distinct string constants. -/
def clouds.AWS : String := "aws"

/-- Modelled from the spec: the DigitalOcean provider identifier. -/
def clouds.DigitalOcean : String := "digitalocean"

/-- Modelled from the spec: the GCE provider identifier. -/
def clouds.GCE : String := "gce"

/-- Modelled from the spec: the Azure provider identifier. -/
def clouds.Azure : String := "azure"

/-- Modelled from the spec: step-name constant of package `amazon`;
the exact value is immaterial, it is only a distinct registry key. -/
def amazon.StepFindAMI : String := "amazon.StepFindAMI"

/-- Modelled from the spec: step-name constant of package `amazon`. -/
def amazon.StepCreateVPC : String := "amazon.StepCreateVPC"

/-- Modelled from the spec: step-name constant of package `amazon`. -/
def amazon.StepCreateSecurityGroups : String := "amazon.StepCreateSecurityGroups"

/-- Modelled from the spec: step-name constant of package `amazon`. -/
def amazon.StepNameCreateInstanceProfiles : String := "amazon.StepNameCreateInstanceProfiles"

/-- Modelled from the spec: step-name constant of package `amazon`. -/
def amazon.StepImportKeyPair : String := "amazon.StepImportKeyPair"

/-- Modelled from the spec: step-name constant of package `amazon`. -/
def amazon.StepCreateInternetGateway : String := "amazon.StepCreateInternetGateway"

/-- Modelled from the spec: step-name constant of package `amazon`. -/
def amazon.StepCreateSubnets : String := "amazon.StepCreateSubnets"

/-- Modelled from the spec: step-name constant of package `amazon`. -/
def amazon.StepCreateRouteTable : String := "amazon.StepCreateRouteTable"

/-- Modelled from the spec: step-name constant of package `amazon`. -/
def amazon.StepAssociateRouteTable : String := "amazon.StepAssociateRouteTable"

/-- Modelled from the spec: step-name constant of package `azure`. -/
def azure.CreateGroupStepName : String := "azure.CreateGroupStepName"

/-- Modelled from the spec: step-name constant of package `azure`. -/
def azure.CreateVNetStepName : String := "azure.CreateVNetStepName"

/-- The `PreProvisionStep` constant of preprovision.go. -/
def PreProvisionStep : String := "preProvision"

/-- `prepProvisionStepFor` of preprovision.go: the switch on the
provider identifier yielding the ordered list of registry lookups, or
an unknown-provider error. The registry is passed explicitly (in Go it
is the package-global state read by `steps.GetStep`). -/
def prepProvisionStepFor {α : Type} (reg : Registry α) (provider : String) :
    Except GoErr (List (Option (PStep α))) :=
  if provider = clouds.AWS then
    .ok [GetStep reg amazon.StepFindAMI,
         GetStep reg amazon.StepCreateVPC,
         GetStep reg amazon.StepCreateSecurityGroups,
         GetStep reg amazon.StepNameCreateInstanceProfiles,
         GetStep reg amazon.StepImportKeyPair,
         GetStep reg amazon.StepCreateInternetGateway,
         GetStep reg amazon.StepCreateSubnets,
         GetStep reg amazon.StepCreateRouteTable,
         GetStep reg amazon.StepAssociateRouteTable]
  else if provider = clouds.DigitalOcean then .ok []
  else if provider = clouds.GCE then .ok []
  else if provider = clouds.Azure then
    .ok [GetStep reg azure.CreateGroupStepName,
         GetStep reg azure.CreateVNetStepName]
  else .error (.new ("unknown provider: " ++ provider))

/-- Outcome of a run: clean return with no error, clean return with an
error value, or a Go panic (here: method call on a nil interface). -/
inductive RunOutcome where
  | ok
  | err : GoErr → RunOutcome
  | panic
deriving DecidableEq, Repr

/-- The `for _, s := range steps` loop body of `StepPreProvision.Run`:
invoke `Run` on each resolved entry in order; on the first non-nil
error return it wrapped with `PreProvisionStep`; a nil entry means a
method call on a nil interface, which panics. Produces the outcome, the
final configuration and the trace of invocations. -/
def runSteps {α : Type} (ctx : Bool) :
    List (Option (PStep α)) → Config α → RunOutcome × Config α × List Event
  | [], cfg => (.ok, cfg, [])
  | none :: _, cfg => (.panic, cfg, [])
  | some s :: rest, cfg =>
    let p := s.run ctx cfg
    match p.1 with
    | some e => (.err (.wrap e PreProvisionStep), p.2, [.ran s.name])
    | none =>
      let r := runSteps ctx rest p.2
      (r.1, r.2.1, .ran s.name :: r.2.2)

/-- `StepPreProvision.Run` of preprovision.go: nil-config check, pipeline
resolution (errors wrapped with `PreProvisionStep`), then the sequential
loop. Returns the outcome, the final configuration pointer and the trace
of step invocations. -/
def StepPreProvision.Run {α : Type} (reg : Registry α) (ctx : Bool)
    (cfg : Option (Config α)) : RunOutcome × Option (Config α) × List Event :=
  match cfg with
  | none => (.err (.new "invalid config"), none, [])
  | some cfg =>
    match prepProvisionStepFor reg cfg.provider with
    | .error e => (.err (.wrap e PreProvisionStep), some cfg, [])
    | .ok ss =>
      let r := runSteps ctx ss cfg
      (r.1, some r.2.1, r.2.2)

/-- `StepPreProvision.Rollback` of preprovision.go: the body is
`return nil`; it touches nothing, so the configuration comes back
unchanged and the error is nil. -/
def StepPreProvision.Rollback {α : Type} (_ctx : Bool)
    (cfg : Option (Config α)) : Option GoErr × Option (Config α) :=
  (none, cfg)

/-- `StepPreProvision.Name` of preprovision.go. -/
def StepPreProvision.Name : String := PreProvisionStep

/-- `StepPreProvision.Description` of preprovision.go. -/
def StepPreProvision.Description : String := PreProvisionStep

/-- `StepPreProvision.Depends` of preprovision.go: returns nil. -/
def StepPreProvision.Depends : List String := []

/-- The configuration reached after running a list of (registered)
steps in order, threading the mutable configuration through each. -/
def runAllCfg {α : Type} (ctx : Bool) : List (PStep α) → Config α → Config α
  | [], cfg => cfg
  | s :: rest, cfg => runAllCfg ctx rest (s.run ctx cfg).2

/-- When the loop over a fully registered pipeline returns a nil error,
the trace is exactly the step names in pipeline order, the final
configuration is the sequential fold of the step actions, and every
step succeeded on the configuration produced by its predecessors. -/
theorem runSteps_ok {α : Type} (ctx : Bool) :
    ∀ (ss : List (PStep α)) (cfg : Config α),
      (runSteps ctx (ss.map some) cfg).1 = RunOutcome.ok →
      (runSteps ctx (ss.map some) cfg).2.2 = ss.map (fun s => Event.ran s.name) ∧
      (runSteps ctx (ss.map some) cfg).2.1 = runAllCfg ctx ss cfg ∧
      ∀ k (h : k < ss.length),
        ((ss.get ⟨k, h⟩).run ctx (runAllCfg ctx (ss.take k) cfg)).1 = none
  | [], cfg, _ => by
    refine ⟨rfl, rfl, ?_⟩
    intro k h
    exact absurd h (Nat.not_lt_zero k)
  | s :: rest, cfg, hok => by
    cases hp : (s.run ctx cfg).1 with
    | some e =>
      simp [runSteps, hp] at hok
    | none =>
      have hok' : (runSteps ctx (rest.map some) (s.run ctx cfg).2).1 = .ok := by
        simpa [runSteps, hp] using hok
      obtain ⟨htr, hcfg, hsteps⟩ := runSteps_ok ctx rest (s.run ctx cfg).2 hok'
      refine ⟨?_, ?_, ?_⟩
      · simpa [runSteps, hp] using htr
      · simpa [runSteps, hp, runAllCfg] using hcfg
      · intro k h
        cases k with
        | zero => simpa [runAllCfg] using hp
        | succ k =>
          have hk : k < rest.length := Nat.lt_of_succ_lt_succ h
          simpa [List.get, List.take_succ_cons, runAllCfg] using hsteps k hk

/-- When the loop over a fully registered pipeline returns an error,
some step `k` failed with an error `E` on the configuration produced by
its predecessors, the returned error is `E` wrapped with
`PreProvisionStep`, the trace is exactly the names of steps `0..k` in
order, and every step before `k` succeeded. -/
theorem runSteps_err {α : Type} (ctx : Bool) :
    ∀ (ss : List (PStep α)) (cfg : Config α) (e : GoErr),
      (runSteps ctx (ss.map some) cfg).1 = RunOutcome.err e →
      ∃ k, ∃ h : k < ss.length, ∃ E,
        ((ss.get ⟨k, h⟩).run ctx (runAllCfg ctx (ss.take k) cfg)).1 = some E ∧
        e = GoErr.wrap E PreProvisionStep ∧
        (runSteps ctx (ss.map some) cfg).2.2 =
          (ss.take (k + 1)).map (fun s => Event.ran s.name) ∧
        ∀ j (hj : j < k),
          ((ss.get ⟨j, Nat.lt_trans hj h⟩).run ctx
              (runAllCfg ctx (ss.take j) cfg)).1 = none
  | [], cfg, e, he => by
    simp [runSteps] at he
  | s :: rest, cfg, e, he => by
    cases hp : (s.run ctx cfg).1 with
    | some E0 =>
      have hE : e = GoErr.wrap E0 PreProvisionStep := by
        have := he
        simp [runSteps, hp] at this
        exact this.symm
      refine ⟨0, Nat.succ_pos _, E0, ?_, hE, ?_, ?_⟩
      · simpa [runAllCfg] using hp
      · simp [runSteps, hp, List.take_succ_cons]
      · intro j hj
        exact absurd hj (Nat.not_lt_zero j)
    | none =>
      have he' : (runSteps ctx (rest.map some) (s.run ctx cfg).2).1 = .err e := by
        simpa [runSteps, hp] using he
      obtain ⟨k, hk, E, hfail, hE, htr, hprev⟩ :=
        runSteps_err ctx rest (s.run ctx cfg).2 e he'
      refine ⟨k + 1, Nat.succ_lt_succ hk, E, ?_, hE, ?_, ?_⟩
      · simpa [List.get, List.take_succ_cons, runAllCfg] using hfail
      · simpa [runSteps, hp, List.take_succ_cons] using htr
      · intro j hj
        cases j with
        | zero => simpa [runAllCfg] using hp
        | succ j =>
          have hj' : j < k := Nat.lt_of_succ_lt_succ hj
          simpa [List.get, List.take_succ_cons, runAllCfg] using hprev j hj'

/-- The forward loop never records a rollback invocation: its trace
consists of `ran` events only. -/
theorem runSteps_no_rollback {α : Type} (ctx : Bool) :
    ∀ (l : List (Option (PStep α))) (cfg : Config α) (n : String),
      Event.rolledBack n ∉ (runSteps ctx l cfg).2.2
  | [], _, _ => by simp [runSteps]
  | none :: _, _, _ => by simp [runSteps]
  | some s :: rest, cfg, n => by
    cases hp : (s.run ctx cfg).1 with
    | some e => simp [runSteps, hp]
    | none =>
      have := runSteps_no_rollback ctx rest (s.run ctx cfg).2 n
      simp [runSteps, hp]
      exact this

/-- The loop can only panic by reaching a nil entry: if every resolved
entry is registered, the outcome is never a panic. -/
theorem runSteps_ne_panic {α : Type} (ctx : Bool) :
    ∀ (l : List (Option (PStep α))) (cfg : Config α),
      (∀ o ∈ l, o ≠ none) → (runSteps ctx l cfg).1 ≠ RunOutcome.panic
  | [], _, _ => by simp [runSteps]
  | none :: _, _, hl => by
    exact absurd rfl (hl none (List.mem_cons_self _ _))
  | some s :: rest, cfg, hl => by
    cases hp : (s.run ctx cfg).1 with
    | some e => simp [runSteps, hp]
    | none =>
      have := runSteps_ne_panic ctx rest (s.run ctx cfg).2
        (fun o ho => hl o (List.mem_cons_of_mem _ ho))
      simpa [runSteps, hp] using this

/-- The loop itself never inspects the context flag: when every
registered entry's `run` ignores the flag, the whole loop does. -/
theorem runSteps_ctx_indep {α : Type} :
    ∀ (l : List (Option (PStep α))) (cfg : Config α),
      (∀ s : PStep α, some s ∈ l → ∀ c, s.run true c = s.run false c) →
      runSteps true l cfg = runSteps false l cfg
  | [], _, _ => rfl
  | none :: _, _, _ => rfl
  | some s :: rest, cfg, hl => by
    have hrun : s.run true cfg = s.run false cfg :=
      hl s (List.mem_cons_self _ _) cfg
    have hrest : ∀ t : PStep α, some t ∈ rest → ∀ c, t.run true c = t.run false c :=
      fun t ht => hl t (List.mem_cons_of_mem _ ht)
    cases hp : (s.run false cfg).1 with
    | some e =>
      simp [runSteps, hrun, hp]
    | none =>
      have := runSteps_ctx_indep rest (s.run false cfg).2 hrest
      simp [runSteps, hrun, hp, this]

/-- Unfolding of `StepPreProvision.Run` once pipeline resolution has
succeeded with the list `l`. -/
theorem run_resolved {α : Type} (reg : Registry α) (ctx : Bool) (cfg : Config α)
    (l : List (Option (PStep α)))
    (hres : prepProvisionStepFor reg cfg.provider = .ok l) :
    StepPreProvision.Run reg ctx (some cfg) =
      ((runSteps ctx l cfg).1, some (runSteps ctx l cfg).2.1,
        (runSteps ctx l cfg).2.2) := by
  simp [StepPreProvision.Run, hres]

/-- A trivially succeeding step registered under the Azure group-step
name, used for concrete instances. -/
def stepGroup : PStep Unit :=
  ⟨azure.CreateGroupStepName, fun _ c => (none, c), fun _ c => (none, c)⟩

/-- A trivially succeeding step registered under the Azure vnet-step
name, used for concrete instances. -/
def stepVNet : PStep Unit :=
  ⟨azure.CreateVNetStepName, fun _ c => (none, c), fun _ c => (none, c)⟩

/-- A step registered under the Azure vnet-step name whose `Run` always
fails with the error `boom`, used for concrete failure instances. -/
def stepVNetFail : PStep Unit :=
  ⟨azure.CreateVNetStepName, fun _ c => (some (.new "boom"), c), fun _ c => (none, c)⟩

/-- A registry holding the two succeeding Azure steps. -/
def regAzure : Registry Unit := fun n =>
  if n = azure.CreateGroupStepName then some stepGroup
  else if n = azure.CreateVNetStepName then some stepVNet
  else none

/-- A registry where the second Azure step fails. -/
def regAzureFail : Registry Unit := fun n =>
  if n = azure.CreateGroupStepName then some stepGroup
  else if n = azure.CreateVNetStepName then some stepVNetFail
  else none

/-- The empty registry: no step was ever registered. -/
def regEmpty : Registry Unit := fun _ => none

/-- A configuration selecting the Azure provider. -/
def cfgAzure : Config Unit := ⟨clouds.Azure, ()⟩

/-- A configuration selecting the AWS provider. -/
def cfgAWS : Config Unit := ⟨clouds.AWS, ()⟩

/-- A configuration selecting the DigitalOcean provider. -/
def cfgDO : Config Unit := ⟨clouds.DigitalOcean, ()⟩

/-- A configuration carrying an unrecognized provider identifier. -/
def cfgUnknown : Config Unit := ⟨"openstack", ()⟩

/-- Claim C1: for a provider whose resolved pipeline is the registered
steps `ss`, a successful run of the composite's `Run` invokes `Run` on
the steps in exactly pipeline order (the trace is the full name list,
and every step ran — successfully — on the configuration produced by
its predecessors, hence only after they returned success); and when some
step fails, the trace stops at the first failing step `k`, so no later
step's `Run` is invoked. -/
theorem C1_run_ordering {α : Type} (reg : Registry α) (ctx : Bool)
    (cfg : Config α) (ss : List (PStep α))
    (hres : prepProvisionStepFor reg cfg.provider = .ok (ss.map some)) :
    ((StepPreProvision.Run reg ctx (some cfg)).1 = RunOutcome.ok →
      (StepPreProvision.Run reg ctx (some cfg)).2.2 =
        ss.map (fun s => Event.ran s.name) ∧
      ∀ k (h : k < ss.length),
        ((ss.get ⟨k, h⟩).run ctx (runAllCfg ctx (ss.take k) cfg)).1 = none) ∧
    (∀ e, (StepPreProvision.Run reg ctx (some cfg)).1 = RunOutcome.err e →
      ∃ k, ∃ h : k < ss.length,
        (StepPreProvision.Run reg ctx (some cfg)).2.2 =
          (ss.take (k + 1)).map (fun s => Event.ran s.name) ∧
        ((ss.get ⟨k, h⟩).run ctx (runAllCfg ctx (ss.take k) cfg)).1 ≠ none ∧
        ∀ j (hj : j < k),
          ((ss.get ⟨j, Nat.lt_trans hj h⟩).run ctx
              (runAllCfg ctx (ss.take j) cfg)).1 = none) := by
  rw [run_resolved reg ctx cfg (ss.map some) hres]
  refine ⟨?_, ?_⟩
  · intro hok
    obtain ⟨htr, _, hsteps⟩ := runSteps_ok ctx ss cfg hok
    exact ⟨htr, hsteps⟩
  · intro e he
    obtain ⟨k, h, E, hfail, _, htr, hprev⟩ := runSteps_err ctx ss cfg e he
    refine ⟨k, h, htr, ?_, hprev⟩
    rw [List.get_eq_getElem] at hfail
    simp [hfail]

/-- Claim C1 witness: for the concrete two-step Azure pipeline, the
successful run's trace is the two step names in pipeline order. -/
theorem C1_run_ordering_witness :
    (StepPreProvision.Run regAzure false (some cfgAzure)).2.2 =
      [Event.ran azure.CreateGroupStepName, Event.ran azure.CreateVNetStepName] := by
  have h := C1_run_ordering regAzure false cfgAzure [stepGroup, stepVNet] (by rfl)
  simpa [stepGroup, stepVNet] using (h.1 (by rfl)).1

/-- Claim C2 counterexample: in the concrete Azure pipeline whose second
step fails (after the first completed successfully), the composite's
`Run` returns the wrapped error but invokes `Rollback` on no step at
all — in particular not on the completed first step, contradicting the
claim that `Rollback` is invoked on `s(k-1)..s1`. -/
theorem C2_counterexample :
    (StepPreProvision.Run regAzureFail false (some cfgAzure)).1 =
      RunOutcome.err (.wrap (.new "boom") PreProvisionStep) ∧
    Event.rolledBack azure.CreateGroupStepName ∉
      (StepPreProvision.Run regAzureFail false (some cfgAzure)).2.2 := by
  decide

/-- Claim C2 (amended): on a forward failure the composite performs no
compensation at all — no run of the composite's `Run` ever invokes
`Rollback` on any step; `Rollback` is indeed never invoked on `sk..sn`,
but neither is it invoked on `s(k-1)..s1`: the error is only wrapped
and propagated upward. -/
theorem C2_no_rollback_on_failure {α : Type} (reg : Registry α) (ctx : Bool)
    (cfg : Option (Config α)) (n : String) :
    Event.rolledBack n ∉ (StepPreProvision.Run reg ctx cfg).2.2 := by
  cases cfg with
  | none => simp [StepPreProvision.Run]
  | some c =>
    cases hres : prepProvisionStepFor reg c.provider with
    | error e => simp [StepPreProvision.Run, hres]
    | ok l =>
      have := runSteps_no_rollback ctx l c n
      simpa [StepPreProvision.Run, hres] using this

/-- Claim C3: for a provider identifier outside the recognized set, the
composite's `Run` returns the unknown-provider error wrapped with the
`preProvision` stage name, leaves the configuration untouched, and
invokes `Run` on no step (empty trace). -/
theorem C3_unknown_provider {α : Type} (reg : Registry α) (ctx : Bool)
    (cfg : Config α)
    (h1 : cfg.provider ≠ clouds.AWS) (h2 : cfg.provider ≠ clouds.DigitalOcean)
    (h3 : cfg.provider ≠ clouds.GCE) (h4 : cfg.provider ≠ clouds.Azure) :
    StepPreProvision.Run reg ctx (some cfg) =
      (RunOutcome.err
          (.wrap (.new ("unknown provider: " ++ cfg.provider)) PreProvisionStep),
        some cfg, []) := by
  simp [StepPreProvision.Run, prepProvisionStepFor, h1, h2, h3, h4]

/-- Claim C3 witness: the theorem applied to the provider identifier
`openstack` with the empty registry. -/
theorem C3_unknown_provider_witness :
    StepPreProvision.Run regEmpty false (some cfgUnknown) =
      (RunOutcome.err
          (.wrap (.new ("unknown provider: " ++ cfgUnknown.provider)) PreProvisionStep),
        some cfgUnknown, []) :=
  C3_unknown_provider regEmpty false cfgUnknown
    (by decide) (by decide) (by decide) (by decide)

/-- Claim C4: for the providers whose resolved pipeline is empty
(DigitalOcean and GCE), the composite's `Run` succeeds with an empty
trace (zero `Run` and zero `Rollback` invocations) and the configuration
exactly as it was passed in. -/
theorem C4_empty_pipeline {α : Type} (reg : Registry α) (ctx : Bool)
    (cfg : Config α)
    (h : cfg.provider = clouds.DigitalOcean ∨ cfg.provider = clouds.GCE) :
    StepPreProvision.Run reg ctx (some cfg) = (RunOutcome.ok, some cfg, []) := by
  rcases h with h | h <;>
    simp [StepPreProvision.Run, prepProvisionStepFor, h, runSteps,
      clouds.AWS, clouds.DigitalOcean, clouds.GCE]

/-- Claim C4 witness: the theorem applied to the DigitalOcean provider
with the empty registry. -/
theorem C4_empty_pipeline_witness :
    StepPreProvision.Run regEmpty false (some cfgDO) = (RunOutcome.ok, some cfgDO, []) :=
  C4_empty_pipeline regEmpty false cfgDO (Or.inl rfl)

/-- Claim C5: calling the composite's `Run` with a nil configuration
pointer returns the `invalid config` error immediately (no panic), with
no step invoked (empty trace) and no other work performed. -/
theorem C5_nil_config {α : Type} (reg : Registry α) (ctx : Bool) :
    StepPreProvision.Run reg ctx none =
      (RunOutcome.err (.new "invalid config"), none, []) := rfl

/-- Claim C6: when an inner step fails with error `E`, the composite's
`Run` returns `E` wrapped — not replaced — with the `preProvision`
stage name: the returned error is literally `GoErr.wrap E
PreProvisionStep`, its cause chain contains `E`, and its message is the
stage name prepended to `E`'s message. -/
theorem C6_error_attribution {α : Type} (reg : Registry α) (ctx : Bool)
    (cfg : Config α) (ss : List (PStep α))
    (hres : prepProvisionStepFor reg cfg.provider = .ok (ss.map some))
    (e : GoErr)
    (he : (StepPreProvision.Run reg ctx (some cfg)).1 = RunOutcome.err e) :
    ∃ k, ∃ h : k < ss.length, ∃ E,
      ((ss.get ⟨k, h⟩).run ctx (runAllCfg ctx (ss.take k) cfg)).1 = some E ∧
      e = GoErr.wrap E PreProvisionStep ∧
      E ∈ e.causes ∧
      e.message = PreProvisionStep ++ ": " ++ E.message := by
  rw [run_resolved reg ctx cfg (ss.map some) hres] at he
  obtain ⟨k, h, E, hfail, hE, _, _⟩ := runSteps_err ctx ss cfg e he
  refine ⟨k, h, E, hfail, hE, ?_, ?_⟩
  · rw [hE]
    simp [GoErr.causes]
  · rw [hE]
    rfl

/-- Claim C6 witness: in the concrete Azure pipeline whose second step
fails with `boom`, the returned error is `boom` wrapped with the
`preProvision` stage name, with `boom` in its cause chain. -/
theorem C6_error_attribution_witness :
    ∃ k, ∃ h : k < ([stepGroup, stepVNetFail] : List (PStep Unit)).length, ∃ E,
      (([stepGroup, stepVNetFail].get ⟨k, h⟩).run false
          (runAllCfg false ([stepGroup, stepVNetFail].take k) cfgAzure)).1 = some E ∧
      GoErr.wrap (.new "boom") PreProvisionStep = GoErr.wrap E PreProvisionStep ∧
      E ∈ (GoErr.wrap (.new "boom") PreProvisionStep).causes ∧
      (GoErr.wrap (.new "boom") PreProvisionStep).message =
        PreProvisionStep ++ ": " ++ E.message :=
  C6_error_attribution regAzureFail false cfgAzure [stepGroup, stepVNetFail]
    (by rfl) (GoErr.wrap (.new "boom") PreProvisionStep) (by rfl)

/-- Claim C7 (amended): the engine does not itself check the registry
lookups; the run avoids dereferencing a nil (unregistered) step exactly
when every entry of the provider's catalog resolves to a registered
step, and then the outcome is never a panic. (With an unregistered
entry the run panics instead of returning a fatal error — see the
counterexample.) -/
theorem C7_registered_no_nil_deref {α : Type} (reg : Registry α) (ctx : Bool)
    (cfg : Config α) (l : List (Option (PStep α)))
    (hres : prepProvisionStepFor reg cfg.provider = .ok l)
    (hall : ∀ o ∈ l, o ≠ none) :
    (StepPreProvision.Run reg ctx (some cfg)).1 ≠ RunOutcome.panic := by
  rw [run_resolved reg ctx cfg l hres]
  exact runSteps_ne_panic ctx l cfg hall

/-- Claim C7 counterexample: with the empty registry (no step ever
registered) and the AWS provider, the composite's `Run` does not return
a fatal error for the failed lookups — it proceeds into the loop and
dereferences the first nil step, i.e. panics. -/
theorem C7_counterexample :
    (StepPreProvision.Run regEmpty false (some cfgAWS)).1 = RunOutcome.panic := by
  decide

/-- Claim C7 witness: with both Azure catalog entries registered, the
run never panics. -/
theorem C7_registered_no_nil_deref_witness :
    (StepPreProvision.Run regAzure false (some cfgAzure)).1 ≠ RunOutcome.panic :=
  C7_registered_no_nil_deref regAzure false cfgAzure
    ([stepGroup, stepVNet].map some) (by rfl) (by simp)

/-- Claim C8 counterexample: with the context already cancelled before
the run starts (so certainly cancelled when step 1 finishes), the
composite still invokes `Run` on step 2 of the concrete Azure pipeline,
the run returns success, and nothing is rolled back — contradicting the
claim that step N+1 is not started and completed steps are rolled
back. -/
theorem C8_counterexample :
    StepPreProvision.Run regAzure true (some cfgAzure) =
      (RunOutcome.ok, some cfgAzure,
        [Event.ran azure.CreateGroupStepName, Event.ran azure.CreateVNetStepName]) := by
  decide

/-- Claim C8 (amended): the composite's `Run` never itself observes
context cancellation; it only forwards the context to the inner steps.
Whenever the resolved steps ignore the cancellation flag, the run with a
cancelled context is identical to the run with a live one — so
cancellation stops the pipeline only if an inner step reports it, and
the engine performs no between-step cancellation check and no rollback
of completed steps. -/
theorem C8_cancellation_not_observed {α : Type} (reg : Registry α)
    (cfg : Config α) (l : List (Option (PStep α)))
    (hres : prepProvisionStepFor reg cfg.provider = .ok l)
    (hindep : ∀ s : PStep α, some s ∈ l → ∀ c, s.run true c = s.run false c) :
    StepPreProvision.Run reg true (some cfg) =
      StepPreProvision.Run reg false (some cfg) := by
  rw [run_resolved reg true cfg l hres, run_resolved reg false cfg l hres,
    runSteps_ctx_indep l cfg hindep]

/-- Claim C8 witness: for the concrete Azure registry of
context-ignoring steps, a cancelled-context run equals a live-context
run. -/
theorem C8_cancellation_not_observed_witness :
    StepPreProvision.Run regAzure true (some cfgAzure) =
      StepPreProvision.Run regAzure false (some cfgAzure) :=
  C8_cancellation_not_observed regAzure cfgAzure ([stepGroup, stepVNet].map some)
    (by rfl)
    (by
      intro s hs c
      simp at hs
      rcases hs with h | h <;> subst h <;> rfl)

/-- Claim C9: the composite's `Rollback` is a pure no-op: for every
context and configuration (including one on which `Run` was never
invoked) it returns a nil error and the configuration unchanged, and
invoking it again on its own result behaves identically. -/
theorem C9_rollback_noop {α : Type} (ctx : Bool) (cfg : Option (Config α)) :
    StepPreProvision.Rollback ctx cfg = (none, cfg) ∧
    StepPreProvision.Rollback ctx (StepPreProvision.Rollback ctx cfg).2 =
      (none, cfg) :=
  ⟨rfl, rfl⟩

/-- Model of `model.Kube`: the ID field plus an abstract payload for all
remaining fields. -/
structure Kube (α : Type) where
  ID : String
  rest : α
deriving DecidableEq, Repr

/-- The ID-defaulting head of `Service.Create`: an empty ID is replaced
by the first 8 characters of the fresh `uuid.New()` value, a non-empty
ID is kept. -/
def kubeEnsureID {α : Type} (uuidNew : String) (k : Kube α) : Kube α :=
  if k.ID = "" then { k with ID := String.mk (uuidNew.data.take 8) } else k

/-- `Service.Create` of the kube service: default the ID, marshal the
record, put the raw encoding under the service storage prefix keyed by
the ID. A marshal failure is wrapped with `marshal`, a storage failure
with `storage: put`. `marshal` (json.Marshal) and `put` (storage.Put)
are external collaborators passed as arbitrary functions; the second
component of the result is the list of put calls issued (each with its
storage prefix, key, and raw value), and the returned `Kube` reflects
the in-place mutation of the record's ID. -/
def Service.Create {α β : Type} (marshal : Kube α → Except GoErr β)
    (put : String → String → β → Except GoErr Unit)
    (uuidNew : String) (pfx : String) (k : Kube α) :
    Except GoErr (Kube α) × List (String × String × β) :=
  let k1 := kubeEnsureID uuidNew k
  match marshal k1 with
  | .error e => (.error (.wrap e "marshal"), [])
  | .ok raw =>
    match put pfx k1.ID raw with
    | .error e => (.error (.wrap e "storage: put"), [(pfx, k1.ID, raw)])
    | .ok _ => (.ok k1, [(pfx, k1.ID, raw)])

/-- Claim C10: `Service.Create` assigns a fresh 8-character identifier
exactly when the incoming ID is empty (leaving the rest of the record
alone) and preserves a caller-supplied ID; the only put it issues stores
the marshalled encoding of the ID-augmented record under the service
prefix keyed by that ID, succeeding when marshalling and the put
succeed; and it returns an error only when marshalling or the storage
put fails (wrapped with `marshal` resp. `storage: put`). -/
theorem C10_service_create {α β : Type} (marshal : Kube α → Except GoErr β)
    (put : String → String → β → Except GoErr Unit)
    (uuidNew : String) (pfx : String) (k : Kube α)
    (h8 : 8 ≤ uuidNew.data.length) :
    ((k.ID = "" →
        kubeEnsureID uuidNew k =
          { k with ID := String.mk (uuidNew.data.take 8) } ∧
        (kubeEnsureID uuidNew k).ID.length = 8) ∧
     (k.ID ≠ "" → kubeEnsureID uuidNew k = k)) ∧
    (∀ raw, marshal (kubeEnsureID uuidNew k) = .ok raw →
      (Service.Create marshal put uuidNew pfx k).2 =
        [(pfx, (kubeEnsureID uuidNew k).ID, raw)] ∧
      (put pfx (kubeEnsureID uuidNew k).ID raw = .ok () →
        (Service.Create marshal put uuidNew pfx k).1 =
          .ok (kubeEnsureID uuidNew k))) ∧
    (∀ e, (Service.Create marshal put uuidNew pfx k).1 = .error e →
      (∃ E, marshal (kubeEnsureID uuidNew k) = .error E ∧
        e = GoErr.wrap E "marshal") ∨
      (∃ raw E, marshal (kubeEnsureID uuidNew k) = .ok raw ∧
        put pfx (kubeEnsureID uuidNew k).ID raw = .error E ∧
        e = GoErr.wrap E "storage: put")) := by
  refine ⟨⟨?_, ?_⟩, ?_, ?_⟩
  · intro hID
    refine ⟨by simp [kubeEnsureID, hID], ?_⟩
    have hlen : (kubeEnsureID uuidNew k).ID = String.mk (uuidNew.data.take 8) := by
      simp [kubeEnsureID, hID]
    rw [hlen]
    show (uuidNew.data.take 8).length = 8
    rw [List.length_take]
    exact Nat.min_eq_left h8
  · intro hID
    simp [kubeEnsureID, hID]
  · intro raw hm
    constructor
    · cases hput : put pfx (kubeEnsureID uuidNew k).ID raw with
      | error E => simp [Service.Create, hm, hput]
      | ok u => simp [Service.Create, hm, hput]
    · intro hput
      simp [Service.Create, hm, hput]
  · intro e he
    cases hm : marshal (kubeEnsureID uuidNew k) with
    | error E =>
      left
      simp [Service.Create, hm] at he
      exact ⟨E, rfl, he.symm⟩
    | ok raw =>
      cases hput : put pfx (kubeEnsureID uuidNew k).ID raw with
      | error E =>
        right
        simp [Service.Create, hm, hput] at he
        exact ⟨raw, E, rfl, hput, he.symm⟩
      | ok u =>
        simp [Service.Create, hm, hput] at he

/-- Concrete marshal collaborator for the C10 witness. -/
def marshalW : Kube Unit → Except GoErr Nat := fun _ => .ok 42

/-- Concrete storage put collaborator for the C10 witness. -/
def putW : String → String → Nat → Except GoErr Unit := fun _ _ _ => .ok ()

/-- Concrete kube record with an empty ID for the C10 witness. -/
def kubeW : Kube Unit := ⟨"", ()⟩

/-- Claim C10 witness: the theorem applied with a 16-character uuid, the
default storage prefix, and an empty-ID record. -/
theorem C10_service_create_witness :
    ((kubeW.ID = "" →
        kubeEnsureID "0123456789abcdef" kubeW =
          { kubeW with ID := String.mk ("0123456789abcdef".data.take 8) } ∧
        (kubeEnsureID "0123456789abcdef" kubeW).ID.length = 8) ∧
     (kubeW.ID ≠ "" → kubeEnsureID "0123456789abcdef" kubeW = kubeW)) ∧
    (∀ raw, marshalW (kubeEnsureID "0123456789abcdef" kubeW) = .ok raw →
      (Service.Create marshalW putW "0123456789abcdef" "/supergiant/kubes/" kubeW).2 =
        [("/supergiant/kubes/", (kubeEnsureID "0123456789abcdef" kubeW).ID, raw)] ∧
      (putW "/supergiant/kubes/" (kubeEnsureID "0123456789abcdef" kubeW).ID raw = .ok () →
        (Service.Create marshalW putW "0123456789abcdef" "/supergiant/kubes/" kubeW).1 =
          .ok (kubeEnsureID "0123456789abcdef" kubeW))) ∧
    (∀ e, (Service.Create marshalW putW "0123456789abcdef" "/supergiant/kubes/" kubeW).1 =
        .error e →
      (∃ E, marshalW (kubeEnsureID "0123456789abcdef" kubeW) = .error E ∧
        e = GoErr.wrap E "marshal") ∨
      (∃ raw E, marshalW (kubeEnsureID "0123456789abcdef" kubeW) = .ok raw ∧
        putW "/supergiant/kubes/" (kubeEnsureID "0123456789abcdef" kubeW).ID raw = .error E ∧
        e = GoErr.wrap E "storage: put")) :=
  C10_service_create marshalW putW "0123456789abcdef" "/supergiant/kubes/" kubeW
    (by decide)

end Supergiant
